import Mathlib

/-!
Verification of the FoundryIQ multi-agent demo backend.

Shallow embedding of the pure logic of `app/backend/agents/orchestrator.py`
and `app/backend/main.py`:

* `route_query` embeds the keyword router (orchestrator.py, lines 44-58):
  the router LLM's reply text is stripped, lower-cased, and matched by
  substring containment against a fixed ordered keyword list.
* `extract_sources`, `default_docs_lookup`, `kb_map` and `run_single_query`
  embed the dispatcher's citation extraction and default-source fallback
  (orchestrator.py, lines 160-273).  The external agent response is modelled
  by `AgentResponse`, whose `Option` fields stand for Python attributes that
  may be absent (`none`) or present with a value.
* `chat` embeds the POST /chat handler of main.py (lines 64-82): the outcome
  of the dispatch is passed in as an `Except` value, errors becoming a 500
  with the stringified error.

Python string operations are embedded on `List Char`: `pyStrip` is
`str.strip()`, `pyLower` is `str.lower()` (ASCII, as `Char.toLower`),
`pyContains` is the substring test `pat in s`.
-/

/-- Python `str.strip()` on a character list: drop whitespace from both ends. -/
def pyStrip (l : List Char) : List Char :=
  (((l.dropWhile Char.isWhitespace).reverse).dropWhile Char.isWhitespace).reverse

/-- Python `str.lower()` on a character list (ASCII case folding). -/
def pyLower (l : List Char) : List Char := l.map Char.toLower

/-- Python substring containment `pat in s`. -/
def pyContains (l : List Char) (pat : String) : Bool :=
  decide (pat.data <:+: l)

/-- The routing normalization of `route_query` (orchestrator.py, lines 48-58):
strip and lower-case the router reply, then return the first category whose
keyword list matches, defaulting to `"hr"`. -/
def route_query (text : String) : String :=
  if pyContains (pyLower (pyStrip text.data)) "hr" then "hr"
  else if pyContains (pyLower (pyStrip text.data)) "marketing"
      || pyContains (pyLower (pyStrip text.data)) "brand"
      || pyContains (pyLower (pyStrip text.data)) "campaign" then "marketing"
  else if pyContains (pyLower (pyStrip text.data)) "product" then "products"
  else "hr"

/-- Spec-side classifier, transcribed from the spec's words (spec.md section 4.1):
"lower-case the text; if it contains "hr" return hr; else if it contains any of
"marketing"/"brand"/"campaign" return marketing; else if it contains "product"
return products; else return hr".  Stated for the refinement comparison with
`route_query`; note the spec does not mention stripping. -/
def specClassify (text : String) : String :=
  if pyContains (pyLower text.data) "hr" then "hr"
  else if pyContains (pyLower text.data) "marketing"
      || pyContains (pyLower text.data) "brand"
      || pyContains (pyLower text.data) "campaign" then "marketing"
  else if pyContains (pyLower text.data) "product" then "products"
  else "hr"

/-- Python truthiness of an optional list attribute: `hasattr(o, a) and o.a`
for a list-valued attribute (`none` models an absent attribute). -/
def truthyList {α : Type} : Option (List α) → Bool
  | some l => !l.isEmpty
  | none => false

/-- Python truthiness of an optional string attribute: `hasattr(o, a) and o.a`
for a string-valued attribute (`none` models an absent attribute). -/
def truthyStr : Option String → Bool
  | some s => !s.isEmpty
  | none => false

/-- A citation object on the external response; each field is a possibly
absent attribute (orchestrator.py, lines 218-227). -/
structure Citation where
  title : Option String
  filepath : Option String
  url : Option String
  chunk_id : Option String
deriving DecidableEq

/-- An entry of the `context` attribute, carrying possibly absent `title` and
`source` attributes (orchestrator.py, lines 233-238). -/
structure CtxObj where
  title : Option String
  source : Option String
deriving DecidableEq

/-- An entry of the `grounding_data` attribute, carrying possibly absent
`title` and `filepath` attributes (orchestrator.py, lines 244-249). -/
structure GroundObj where
  title : Option String
  filepath : Option String
deriving DecidableEq

/-- The citation-relevant shape of the external agent response: the reply text
and the three optionally present citation attributes probed by the dispatcher. -/
structure AgentResponse where
  text : String
  citations : Option (List Citation)
  context : Option (List CtxObj)
  grounding_data : Option (List GroundObj)
deriving DecidableEq

/-- A `source_info` dict: the `kb` key is always set, the four metadata keys
are optional (orchestrator.py, lines 219-227). -/
structure SourceInfo where
  kb : String
  title : Option String
  filepath : Option String
  url : Option String
  chunk_id : Option String
deriving DecidableEq

/-- `len(source_info) > 1`: the dict holds some key besides `kb`. -/
def sourceHasMeta (s : SourceInfo) : Bool :=
  s.title.isSome || s.filepath.isSome || s.url.isSome || s.chunk_id.isSome

/-- The `source_info` built from one citation object: each field is kept when
the attribute is present and truthy (orchestrator.py, lines 219-227). -/
def citationSource (kb : String) (c : Citation) : SourceInfo :=
  ⟨kb,
    if truthyStr c.title then c.title else none,
    if truthyStr c.filepath then c.filepath else none,
    if truthyStr c.url then c.url else none,
    if truthyStr c.chunk_id then c.chunk_id else none⟩

/-- The `source_info` built from one `context` entry: `title` and `source`
are copied whenever the attribute is present, with no truthiness check
(orchestrator.py, lines 234-238). -/
def ctxSource (kb : String) (c : CtxObj) : SourceInfo :=
  ⟨kb, c.title, c.source, none, none⟩

/-- The `source_info` built from one `grounding_data` entry
(orchestrator.py, lines 245-249). -/
def groundingSource (kb : String) (g : GroundObj) : SourceInfo :=
  ⟨kb, g.title, g.filepath, none, none⟩

/-- The citations block (orchestrator.py, lines 217-229): if the `citations`
attribute is present and non-empty, keep the per-citation dicts that carry
more than the `kb` key. -/
def citationsSources (kb : String) (r : AgentResponse) : List SourceInfo :=
  if truthyList r.citations then
    List.filter sourceHasMeta ((r.citations.getD []).map (citationSource kb))
  else []

/-- The context block (orchestrator.py, lines 232-240). -/
def contextSources (kb : String) (r : AgentResponse) : List SourceInfo :=
  if truthyList r.context then
    List.filter sourceHasMeta ((r.context.getD []).map (ctxSource kb))
  else []

/-- The grounding_data block (orchestrator.py, lines 243-251). -/
def groundingSources (kb : String) (r : AgentResponse) : List SourceInfo :=
  if truthyList r.grounding_data then
    List.filter sourceHasMeta ((r.grounding_data.getD []).map (groundingSource kb))
  else []

/-- The citation extraction of `run_single_query` (orchestrator.py, lines
212-251): start empty, run the citations block, then the context block only
when `sources` is still empty, then the grounding_data block likewise. -/
def extract_sources (kb : String) (r : AgentResponse) : List SourceInfo :=
  let sources := citationsSources kb r
  let sources := if sources.isEmpty then sources ++ contextSources kb r else sources
  let sources := if sources.isEmpty then sources ++ groundingSources kb r else sources
  sources

/-- The `kb_map` dict (orchestrator.py, lines 165-169), with `none` for a
missing key. -/
def kb_map (route : String) : Option String :=
  if route = "hr" then some "kb1-hr"
  else if route = "marketing" then some "kb2-marketing"
  else if route = "products" then some "kb3-products"
  else none

/-- The knowledge base bound to the specialist stored under each key of the
`specialists` dict (orchestrator.py, lines 177-205): the agent under "hr" is
built on the provider for "kb1-hr", and so on; `none` for a missing key. -/
def specialist_kb (route : String) : Option String :=
  if route = "hr" then some "kb1-hr"
  else if route = "marketing" then some "kb2-marketing"
  else if route = "products" then some "kb3-products"
  else none

/-- The `default_docs` dict and its `.get(route, ...)` fallback
(orchestrator.py, lines 256-271). -/
def default_docs_lookup (kb_name : String) (route : String) : List SourceInfo :=
  if route = "hr" then
    [⟨kb_name, some "Employee_Handbook.pdf", some "hr-policies/Employee_Handbook.pdf", none, none⟩,
     ⟨kb_name, some "PTO_Policy_2024.docx", some "hr-policies/PTO_Policy_2024.docx", none, none⟩,
     ⟨kb_name, some "Benefits_Guide.pdf", some "hr-policies/Benefits_Guide.pdf", none, none⟩]
  else if route = "marketing" then
    [⟨kb_name, some "Brand_Guidelines.pdf", some "marketing/Brand_Guidelines.pdf", none, none⟩,
     ⟨kb_name, some "Campaign_Playbook.pptx", some "marketing/Campaign_Playbook.pptx", none, none⟩]
  else if route = "products" then
    [⟨kb_name, some "Product_Catalog_2024.xlsx", some "products/Product_Catalog_2024.xlsx", none, none⟩,
     ⟨kb_name, some "Specifications.pdf", some "products/Specifications.pdf", none, none⟩]
  else [⟨kb_name, some "Knowledge Base", some kb_name, none, none⟩]

/-- `run_single_query` (orchestrator.py, lines 160-273) with the two external
round trips abstracted into inputs: `routerText` is the router LLM's reply and
`response` the specialist's reply.  Returns `(route, response.text, sources)`. -/
def run_single_query (routerText : String) (response : AgentResponse) :
    String × String × List SourceInfo :=
  let route := route_query routerText
  let kb_name := (kb_map route).getD "unknown"
  let sources := extract_sources kb_name response
  let sources := if sources.isEmpty then default_docs_lookup kb_name route else sources
  (route, response.text, sources)

/-- The body of a successful POST /chat (main.py, lines 64-82). -/
structure ChatResponse where
  message : String
  agent : String
  sources : List SourceInfo
deriving DecidableEq

/-- The POST /chat handler (main.py, lines 64-82), with the dispatch outcome
passed in: a successful `run_single_query` result becomes a `ChatResponse`
whose agent is the route suffixed with "-agent"; a raised error (already
stringified, as `str(e)`) becomes status 500 with the error text as detail. -/
def chat (result : Except String (String × String × List SourceInfo)) :
    Except (Nat × String) ChatResponse :=
  match result with
  | Except.ok (route, text, sources) => Except.ok ⟨text, route ++ "-agent", sources⟩
  | Except.error e => Except.error (500, e)

lemma toLower_of_ws {c : Char} (h : c.isWhitespace = true) : c.toLower = c := by
  simp only [Char.isWhitespace, Bool.or_eq_true, decide_eq_true_eq] at h
  rcases h with ((h | h) | h) | h <;> subst h <;> decide

/-- A non-whitespace word occurring in `a ++ b` with `a` all whitespace
occurs in `b`. -/
lemma sub_drop_ws_left {t : List Char} (ht : ∀ c ∈ t, c.isWhitespace = false) :
    ∀ {a b : List Char}, (∀ c ∈ a, c.isWhitespace = true) → t <:+: a ++ b → t <:+: b := by
  intro a
  induction a with
  | nil => intro b _ h; simpa using h
  | cons c a ih =>
    intro b ha h
    obtain ⟨x, y, hxy⟩ := h
    cases x with
    | nil =>
      cases t with
      | nil => exact List.nil_infix
      | cons d t' =>
        simp only [List.nil_append, List.cons_append] at hxy
        injection hxy with h1 h2
        have hd := ht d (by simp)
        rw [h1] at hd
        have hc := ha c (by simp)
        rw [hd] at hc
        exact absurd hc (by decide)
    | cons e x' =>
      simp only [List.cons_append] at hxy
      injection hxy with h1 h2
      exact ih (fun d hd => ha d (by simp [hd])) ⟨x', y, h2⟩

/-- A non-whitespace word occurring in `b ++ a` with `a` all whitespace
occurs in `b`. -/
lemma sub_drop_ws_right {t a b : List Char} (ht : ∀ c ∈ t, c.isWhitespace = false)
    (ha : ∀ c ∈ a, c.isWhitespace = true) (h : t <:+: b ++ a) : t <:+: b := by
  rw [← List.reverse_infix] at h ⊢
  rw [ List.reverse_append] at h
  exact sub_drop_ws_left (fun c hc => ht c (List.mem_reverse.mp hc))
    (fun c hc => ha c (List.mem_reverse.mp hc)) h

/-- Stripping splits a list into a whitespace border around `pyStrip`. -/
lemma strip_split (l : List Char) :
    ∃ w₁ w₂ : List Char, l = w₁ ++ pyStrip l ++ w₂ ∧
      (∀ c ∈ w₁, c.isWhitespace = true) ∧ (∀ c ∈ w₂, c.isWhitespace = true) := by
  refine ⟨l.takeWhile Char.isWhitespace,
    ((l.dropWhile Char.isWhitespace).reverse.takeWhile Char.isWhitespace).reverse,
    ?_, ?_, ?_⟩
  · have h1 := List.takeWhile_append_dropWhile Char.isWhitespace
      (l.dropWhile Char.isWhitespace).reverse
    have h2 := congrArg List.reverse h1
    rw [ List.reverse_append, List.reverse_reverse] at h2
    conv_lhs => rw [← List.takeWhile_append_dropWhile Char.isWhitespace l, ← h2]
    simp only [pyStrip, List.append_assoc]
  · exact fun c hc => List.mem_takeWhile_imp hc
  · exact fun c hc => List.mem_takeWhile_imp (List.mem_reverse.mp hc)

/-- Containment of a non-whitespace pattern is unaffected by stripping. -/
lemma sub_lower_strip_iff {pat : List Char} (hpat : ∀ c ∈ pat, c.isWhitespace = false)
    (l : List Char) : pat <:+: pyLower (pyStrip l) ↔ pat <:+: pyLower l := by
  obtain ⟨w₁, w₂, hdec, hw₁, hw₂⟩ := strip_split l
  constructor
  · intro h
    have hsub : pyStrip l <:+: l := ⟨w₁, w₂, hdec.symm⟩
    exact h.trans (hsub.map Char.toLower)
  · intro h
    have e₁ : w₁.map Char.toLower = w₁ := by
      have hw : ∀ c ∈ w₁, Char.toLower c = id c := fun c hc => toLower_of_ws (hw₁ c hc)
      rw [ List.map_congr_left hw, List.map_id]
    have e₂ : w₂.map Char.toLower = w₂ := by
      have hw : ∀ c ∈ w₂, Char.toLower c = id c := fun c hc => toLower_of_ws (hw₂ c hc)
      rw [ List.map_congr_left hw, List.map_id]
    have hlw : pyLower l = w₁ ++ (pyLower (pyStrip l) ++ w₂) := by
      conv_lhs => rw [hdec]
      simp only [pyLower, List.map_append, e₁, e₂, List.append_assoc]
    rw [hlw] at h
    exact sub_drop_ws_right hpat hw₂ (sub_drop_ws_left hpat hw₁ h)

lemma pyContains_strip (pat : String) (hpat : ∀ c ∈ pat.data, c.isWhitespace = false)
    (s : String) :
    pyContains (pyLower (pyStrip s.data)) pat = pyContains (pyLower s.data) pat := by
  simp only [pyContains]
  exact decide_eq_decide.mpr (sub_lower_strip_iff hpat s.data)

lemma route_query_cases (t : String) :
    route_query t = "hr" ∨ route_query t = "marketing" ∨ route_query t = "products" := by
  simp only [route_query]
  split_ifs <;> simp

/-- C1: For every input string, classification lower-cases the string and
returns the first matching category in the fixed order hr, marketing
(keywords marketing/brand/campaign), products (keyword product), defaulting
to hr; in particular "Tell me about our brand campaign" classifies to
marketing and "What are the product specs?" classifies to products. -/
theorem classify_first_match (s : String) :
    route_query s = specClassify s ∧
    route_query "Tell me about our brand campaign" = "marketing" ∧
    route_query "What are the product specs?" = "products" := by
  refine ⟨?_, by decide, by decide⟩
  simp only [route_query, specClassify]
  rw [pyContains_strip "hr" (by decide), pyContains_strip "marketing" (by decide),
    pyContains_strip "brand" (by decide), pyContains_strip "campaign" (by decide),
    pyContains_strip "product" (by decide)]

/-- C2: every string containing the substring "hr" (case-insensitive)
classifies to hr, regardless of any other keyword it contains. -/
theorem classify_hr_first (s : String) (h : "hr".data <:+: pyLower s.data) :
    route_query s = "hr" := by
  have h' : pyContains (pyLower (pyStrip s.data)) "hr" = true := by
    rw [pyContains_strip "hr" (by decide)]
    exact decide_eq_true h
  simp [route_query, h']

/-- Witness for C2 on a string that also contains the keywords "product" and
"campaign". -/
theorem classify_hr_first_w :
    ("hr".data <:+: pyLower "Our HR product campaign".data) ∧
    route_query "Our HR product campaign" = "hr" :=
  ⟨by decide, classify_hr_first "Our HR product campaign" (by decide)⟩

/-- C3: a string containing none of the recognized keywords (case-insensitive)
classifies to the default hr; the empty string classifies to hr; and
classification is total, always yielding one of the three categories. -/
theorem classify_default_total (s : String)
    (h : ∀ pat ∈ (["hr", "marketing", "brand", "campaign", "product"] : List String),
      ¬ pat.data <:+: pyLower s.data) :
    route_query s = "hr" ∧ route_query "" = "hr" ∧
    ∀ t : String, route_query t ∈ (["hr", "marketing", "products"] : List String) := by
  refine ⟨?_, by decide, fun t => ?_⟩
  · have hx : ∀ pat : String, (∀ c ∈ pat.data, c.isWhitespace = false) →
        pat ∈ (["hr", "marketing", "brand", "campaign", "product"] : List String) →
        pyContains (pyLower (pyStrip s.data)) pat = false := by
      intro pat hws hmem
      rw [pyContains_strip pat hws]
      simp only [pyContains]
      exact decide_eq_false (h pat hmem)
    have h1 := hx "hr" (by decide) (by simp)
    have h2 := hx "marketing" (by decide) (by simp)
    have h3 := hx "brand" (by decide) (by simp)
    have h4 := hx "campaign" (by decide) (by simp)
    have h5 := hx "product" (by decide) (by simp)
    simp [route_query, h1, h2, h3, h4, h5]
  · rcases route_query_cases t with h' | h' | h' <;> simp [h']

/-- Witness for C3 on a keyword-free string. -/
theorem classify_default_total_w :
    (∀ pat ∈ (["hr", "marketing", "brand", "campaign", "product"] : List String),
      ¬ pat.data <:+: pyLower "ok!".data) ∧ route_query "ok!" = "hr" :=
  ⟨by decide, (classify_default_total "ok!" (by decide)).1⟩

/-- The extraction equals the first of the three per-attribute extractions
that produced at least one entry. -/
lemma extract_first_nonempty (kb : String) (r : AgentResponse) :
    extract_sources kb r =
      if citationsSources kb r = [] then
        (if contextSources kb r = [] then groundingSources kb r
         else contextSources kb r)
      else citationsSources kb r := by
  simp only [extract_sources]
  by_cases h1 : citationsSources kb r = []
  · by_cases h2 : contextSources kb r = []
    · simp [h1, h2]
    · simp [h1, h2]
  · simp [h1]

/-- C4: citation extraction probes the three attributes in the priority order
citations, context, grounding_data, and the result is the extraction of the
first attribute that yielded at least one structured reference; a later
attribute contributes only when every earlier one produced zero entries. -/
theorem extract_priority_order (kb : String) (r : AgentResponse) :
    extract_sources kb r =
      if citationsSources kb r = [] then
        (if contextSources kb r = [] then groundingSources kb r
         else contextSources kb r)
      else citationsSources kb r :=
  extract_first_nonempty kb r

/-- C5: when extraction yields no structured citation data, the sources of the
response equal the fixed default list of the routed category — three entries
for hr, two for marketing, two for products — and every entry carries the
knowledge-base identifier of the routed category together with its fixed
title/filepath pair. -/
theorem default_sources_on_empty (rt : String) (resp : AgentResponse)
    (h : extract_sources ((kb_map (route_query rt)).getD "unknown") resp = []) :
    (run_single_query rt resp).2.2 =
      default_docs_lookup ((kb_map (route_query rt)).getD "unknown") (route_query rt) ∧
    (route_query rt = "hr" → (run_single_query rt resp).2.2.length = 3) ∧
    (route_query rt = "marketing" → (run_single_query rt resp).2.2.length = 2) ∧
    (route_query rt = "products" → (run_single_query rt resp).2.2.length = 2) ∧
    ∀ s ∈ (run_single_query rt resp).2.2,
      s.kb = (kb_map (route_query rt)).getD "unknown" ∧
      s.title.isSome = true ∧ s.filepath.isSome = true := by
  have hS : (run_single_query rt resp).2.2 =
      default_docs_lookup ((kb_map (route_query rt)).getD "unknown") (route_query rt) := by
    simp only [run_single_query, h]
    simp
  refine ⟨hS, ?_, ?_, ?_, ?_⟩ <;>
    rcases route_query_cases rt with hr | hr | hr <;>
    rw [hr] at hS ⊢ <;>
    simp_all [default_docs_lookup, kb_map]

/-- Witness for C5: the hr route with a response carrying no citation data. -/
theorem default_sources_on_empty_w :
    extract_sources ((kb_map (route_query "hr")).getD "unknown")
      (AgentResponse.mk "ok" none none none) = [] ∧
    (run_single_query "hr" (AgentResponse.mk "ok" none none none)).2.2 =
      default_docs_lookup ((kb_map (route_query "hr")).getD "unknown") (route_query "hr") :=
  ⟨by decide,
    (default_sources_on_empty "hr" (AgentResponse.mk "ok" none none none) (by decide)).1⟩

/-- C6: every dispatch error surfaces as status 500 whose detail is the
stringified error, and never as a (partial) ChatResponse. -/
theorem chat_error_500 (e : String) :
    chat (Except.error e) = Except.error (500, e) ∧
    ∀ r : ChatResponse, chat (Except.error e) ≠ Except.ok r :=
  ⟨rfl, fun r hcontra => by simp [chat] at hcontra⟩

/-- Witness for C6 at a concrete error string. -/
theorem chat_error_500_w :
    chat (Except.error "boom") = Except.error (500, "boom") ∧
    ∀ r : ChatResponse, chat (Except.error "boom") ≠ Except.ok r :=
  chat_error_500 "boom"

/-- C7: the category-to-knowledge-source binding is the fixed map hr ↦ kb1-hr,
marketing ↦ kb2-marketing, products ↦ kb3-products; it is exclusive (1:1 on
bound categories), and on every routed category the specialist selected by the
dispatcher is bound to exactly the knowledge source of `kb_map`. -/
theorem kb_binding_exclusive :
    kb_map "hr" = some "kb1-hr" ∧ kb_map "marketing" = some "kb2-marketing" ∧
    kb_map "products" = some "kb3-products" ∧
    (∀ r₁ r₂ : String, (kb_map r₁).isSome = true → kb_map r₁ = kb_map r₂ → r₁ = r₂) ∧
    ∀ rt : String, specialist_kb (route_query rt) = kb_map (route_query rt) ∧
      (kb_map (route_query rt)).isSome = true := by
  refine ⟨by decide, by decide, by decide, ?_, fun rt => ?_⟩
  · intro r₁ r₂ hsome heq
    simp only [kb_map] at hsome heq
    split_ifs at hsome heq <;> simp_all
  · rcases route_query_cases rt with h | h | h <;> rw [h] <;> exact ⟨by decide, by decide⟩

/-- Witness for C7: the injectivity at the marketing key. -/
theorem kb_binding_exclusive_w :
    (kb_map "marketing").isSome = true ∧ ("marketing" : String) = "marketing" :=
  ⟨by decide, kb_binding_exclusive.2.2.2.1 "marketing" "marketing" (by decide) rfl⟩

/-- C8: the classification result is always a key of both the specialists dict
and `kb_map`, the `kb_map.get` lookup never falls back to "unknown", and the
`default_docs.get` fallback entry is unreachable for every routed category. -/
theorem route_lookup_safe (rt : String) :
    route_query rt ∈ (["hr", "marketing", "products"] : List String) ∧
    (kb_map (route_query rt)).isSome = true ∧
    (specialist_kb (route_query rt)).isSome = true ∧
    (kb_map (route_query rt)).getD "unknown" ≠ "unknown" ∧
    ∀ kb : String, default_docs_lookup kb (route_query rt) ≠
      [⟨kb, some "Knowledge Base", some kb, none, none⟩] := by
  rcases route_query_cases rt with h | h | h <;> rw [h] <;>
    refine ⟨by decide, by decide, by decide, by decide, fun kb hcontra => ?_⟩ <;>
    · have hl := congrArg List.length hcontra
      simp [default_docs_lookup] at hl

/-- Witness for C8: the fallback entry is not produced on the products route. -/
theorem route_lookup_safe_w :
    (kb_map (route_query "products")).getD "unknown" ≠ "unknown" ∧
    default_docs_lookup "kb3-products" (route_query "products") ≠
      [⟨"kb3-products", some "Knowledge Base", some "kb3-products", none, none⟩] :=
  ⟨(route_lookup_safe "products").2.2.2.1,
    (route_lookup_safe "products").2.2.2.2 "kb3-products"⟩

/-- C9: in every successful POST /chat response the agent field is the routed
category suffixed with "-agent", hence one of hr-agent, marketing-agent,
products-agent. -/
theorem chat_agent_name (rt : String) (resp : AgentResponse) :
    chat (Except.ok (run_single_query rt resp)) =
      Except.ok ⟨resp.text, route_query rt ++ "-agent", (run_single_query rt resp).2.2⟩ ∧
    route_query rt ++ "-agent" ∈
      (["hr-agent", "marketing-agent", "products-agent"] : List String) := by
  constructor
  · simp [chat, run_single_query]
  · rcases route_query_cases rt with h | h | h <;> rw [h] <;> decide

/-- C10: every source entry produced by citation extraction carries, besides
the knowledge-base identifier, at least one metadata field (title, filepath,
url or chunk_id); a candidate with none of them is dropped. -/
theorem extract_entries_have_meta (kb : String) (r : AgentResponse) :
    ∀ s ∈ extract_sources kb r,
      (s.title.isSome || s.filepath.isSome || s.url.isSome || s.chunk_id.isSome) = true := by
  intro s hs
  rw [extract_first_nonempty] at hs
  have hmeta : sourceHasMeta s = true := by
    split_ifs at hs with h1 h2
    · simp only [groundingSources] at hs
      split at hs
      · exact (List.mem_filter.mp hs).2
      · simp at hs
    · simp only [contextSources] at hs
      split at hs
      · exact (List.mem_filter.mp hs).2
      · simp at hs
    · simp only [citationsSources] at hs
      split at hs
      · exact (List.mem_filter.mp hs).2
      · simp at hs
  simpa [sourceHasMeta] using hmeta

/-- Witness for C10: a single citation carrying only a title. -/
theorem extract_entries_have_meta_w :
    (⟨"kb1-hr", some "Doc.pdf", none, none, none⟩ : SourceInfo) ∈
      extract_sources "kb1-hr"
        (AgentResponse.mk "ok" (some [Citation.mk (some "Doc.pdf") none none none]) none none) ∧
    ((some "Doc.pdf" : Option String).isSome || (none : Option String).isSome ||
      (none : Option String).isSome || (none : Option String).isSome) = true :=
  ⟨by decide,
    extract_entries_have_meta "kb1-hr"
      (AgentResponse.mk "ok" (some [Citation.mk (some "Doc.pdf") none none none]) none none)
      ⟨"kb1-hr", some "Doc.pdf", none, none, none⟩ (by decide)⟩
